import Mathlib

/-!
Verification of the SerpApi MCP server adapter (`src/serpapi-mcp-server/server.py`).

The file embeds the two tool handlers, `search` and `image_search`, as pure Lean
functions.  The remote SerpApi call is modelled by a `CallOutcome` argument: the
handler cannot influence the remote service, so the outcome of the single HTTP
round trip (a parsed JSON payload, an `httpx.HTTPStatusError` with a status code
and body text, or any other exception) is an input of the embedding.  Python
dictionaries of request parameters are embedded as association lists with
Python's insert-or-replace assignment (`Dict.set`), so that `{**defaults, **params}`
and `dict.update` become `Dict.update`.  Python's `//` on integers is floor
division, embedded as `Int.fdiv`; Python's slice `xs[:n]`, which for negative `n`
keeps everything but the last `|n|` elements, is embedded as `pySliceTo`.
`Optional[int]` parameters are embedded as `Option Int`; applying `>` or `-` to
`None` raises a `TypeError` in Python, so the handlers return `Except.error`
exactly where the Python code would raise before reaching its `try` block.
-/

/-- Scalar parameter values appearing in a request dictionary. -/
inductive Val where
  | str : String → Val
  | int : Int → Val
  | bool : Bool → Val
  deriving DecidableEq

/-- A Python `dict` of request parameters, as an association list with unique keys. -/
abbrev Dict := List (String × Val)

/-- Python dictionary assignment `d[k] = v`: replace the entry in place when the
key is present, otherwise append the new entry. -/
def Dict.set : Dict → String → Val → Dict
  | [], k, v => [(k, v)]
  | p :: rest, k, v => if p.1 = k then (k, v) :: rest else p :: Dict.set rest k v

/-- Python `d.update(other)` (also the tail part of `{**d, **other}`): assign
every entry of `other` into `d`, in order, later entries winning. -/
def Dict.update (d other : Dict) : Dict :=
  other.foldl (fun acc p => Dict.set acc p.1 p.2) d

/-- Key lookup `d.get(k)` in a Python dictionary. -/
def Dict.get? : Dict → String → Option Val
  | [], _ => Option.none
  | p :: rest, k => if p.1 = k then Option.some p.2 else Dict.get? rest k

/-- One entry of the `organic_results` sequence of a web-search payload; a
missing field is `Option.none` (server.py lines 44-47 read `title`, `link`,
`snippet` with `.get` fallbacks). -/
structure OrganicEntry where
  title : Option String
  link : Option String
  snippet : Option String

/-- The part of a web-search JSON payload that `search` reads: the optional
top-level `organic_results` key. -/
structure SearchResponse where
  organic_results : Option (List OrganicEntry)

/-- One entry of the `images_results` sequence; server.py lines 114-117 read
`title`, `original`, `thumbnail`, `source` with `.get` fallbacks. -/
structure ImageEntry where
  title : Option String
  original : Option String
  thumbnail : Option String
  source : Option String

/-- One entry of the `related_searches` sequence; server.py line 128 reads its
`query` field with `.get("query", "")`. -/
structure RelatedItem where
  query : Option String

/-- The part of an image-search JSON payload that `image_search` reads: the
optional top-level keys `error`, `images_results` and `related_searches`. -/
structure ImageResponse where
  error : Option String
  images_results : Option (List ImageEntry)
  related_searches : Option (List RelatedItem)

/-- Outcome of the single remote SerpApi round trip, an input of the embedding:
a parsed payload, an `httpx.HTTPStatusError` carrying the response status code
and body text, or any other exception carrying its description. -/
inductive CallOutcome (α : Type) where
  | success : α → CallOutcome α
  | httpStatusError : Nat → String → CallOutcome α
  | otherError : String → CallOutcome α

/-- The `except httpx.HTTPStatusError` branch, identical in both tools
(server.py lines 54-60 and 134-140): 429 and 401 map to fixed messages, any
other status to `"Error: <code> - <text>"`. -/
def httpStatusMessage (code : Nat) (text : String) : String :=
  if code = 429 then "Error: Rate limit exceeded. Please try again later."
  else if code = 401 then "Error: Invalid API key. Please check your SERPAPI_API_KEY."
  else "Error: " ++ toString code ++ " - " ++ text

/-- The outbound request built by `search` (server.py lines 31-35):
`{"api_key": API_KEY, "engine": "google_light", **params}`. -/
def searchParams (api_key : String) (params : Dict) : Dict :=
  Dict.update [("api_key", Val.str api_key), ("engine", Val.str "google_light")] params

/-- One formatted block of `search` output (server.py line 48):
`f"Title: {title}\nLink: {link}\nSnippet: {snippet}\n"`. -/
def organicBlock (result : OrganicEntry) : String :=
  "Title: " ++ result.title.getD "No title" ++ "\n" ++
  "Link: " ++ result.link.getD "No link" ++ "\n" ++
  "Snippet: " ++ result.snippet.getD "No snippet" ++ "\n"

/-- The success-path formatting of `search` (server.py lines 42-51). -/
def formatSearchResults (data : SearchResponse) : String :=
  match data.organic_results with
  | Option.some results =>
      let formatted_results := results.map organicBlock
      if formatted_results.isEmpty then "No organic results found"
      else String.intercalate "\n" formatted_results
  | Option.none => "No organic results found"

/-- The `search` tool (server.py lines 21-63).  The parameter merge happens
before the `try` block but cannot raise, so the result is always `Except.ok`. -/
def search (api_key : String) (params : Dict) (outcome : CallOutcome SearchResponse) :
    Except String String :=
  let _request := searchParams api_key params
  Except.ok (match outcome with
    | CallOutcome.success data => formatSearchResults data
    | CallOutcome.httpStatusError code text => httpStatusMessage code text
    | CallOutcome.otherError msg => "Error: " ++ msg)

/-- The count clamp of `image_search` (server.py lines 84-85):
`if count > 10: count = 10`. -/
def clampCount (count : Int) : Int :=
  if count > 10 then 10 else count

/-- The fixed parameter set built by `image_search` (server.py lines 87-93),
with `count` already clamped; `ijn` is `(start - 1) // 10`, Python floor
division. -/
def imageSearchBaseParams (api_key query : String) (count start : Int) : Dict :=
  [("api_key", Val.str api_key),
   ("engine", Val.str "google_images"),
   ("q", Val.str query),
   ("ijn", Val.int ((start - 1).fdiv 10)),
   ("num", Val.int count)]

/-- The outbound request of `image_search` (server.py lines 87-97): the fixed
parameter set, then `search_params.update(params)` guarded by `if params:`
(both `None` and an empty dictionary are falsy and skip the update). -/
def imageSearchParams (api_key query : String) (count start : Int) (params : Option Dict) :
    Dict :=
  let base := imageSearchBaseParams api_key query count start
  match params with
  | Option.none => base
  | Option.some d => if d.isEmpty then base else Dict.update base d

/-- Python slice `xs[:stop]` for an integer `stop`: for nonnegative `stop` the
first `stop` elements, for negative `stop` everything but the last `|stop|`
elements. -/
def pySliceTo {α : Type} (xs : List α) (stop : Int) : List α :=
  if 0 ≤ stop then xs.take stop.toNat
  else xs.take (xs.length - (-stop).toNat)

/-- One formatted block of `image_search` output (server.py lines 119-124),
for the entry at zero-based position `i`. -/
def imageBlock (i : Nat) (image : ImageEntry) : String :=
  "[" ++ toString (i + 1) ++ "] Title: " ++ image.title.getD "No title" ++ "\n" ++
  "Source: " ++ image.source.getD "Unknown" ++ "\n" ++
  "Image URL: " ++ image.original.getD "" ++ "\n" ++
  "Thumbnail: " ++ image.thumbnail.getD "" ++ "\n"

/-- The related-searches block (server.py lines 128-129): `"\nRelated Searches: "`
followed by the `query` fields of the first five items, comma-separated. -/
def relatedBlock (rel : List RelatedItem) : String :=
  "\nRelated Searches: " ++
    String.intercalate ", " ((rel.take 5).map (fun item => item.query.getD ""))

/-- The success-path processing of `image_search` (server.py lines 104-131):
the `error` key short-circuits, an empty or absent `images_results` yields the
fixed message, otherwise the first `count` entries (Python slice) are formatted
and a non-empty `related_searches` appends one more block. -/
def formatImageResults (count : Int) (data : ImageResponse) : String :=
  match data.error with
  | Option.some e => "Error: " ++ e
  | Option.none =>
      let image_results := data.images_results.getD []
      if image_results.isEmpty then "No image results found for your query."
      else
        let blocks := (pySliceTo image_results count).enum.map (fun p => imageBlock p.1 p.2)
        let blocks :=
          match data.related_searches with
          | Option.some rel => if rel.isEmpty then blocks else blocks ++ [relatedBlock rel]
          | Option.none => blocks
        String.intercalate "\n\n" blocks

/-- The `image_search` tool (server.py lines 67-142).  `count` and `start` are
Python `Optional[int]`; the clamp `count > 10` and the subtraction `start - 1`
happen before the `try` block, so passing `None` for either raises a `TypeError`
that nothing catches, embedded as `Except.error`. -/
def image_search (api_key query : String) (count start : Option Int) (params : Option Dict)
    (outcome : CallOutcome ImageResponse) : Except String String :=
  match count with
  | Option.none => Except.error "TypeError: unorderable types NoneType and int"
  | Option.some count0 =>
      let c := clampCount count0
      match start with
      | Option.none => Except.error "TypeError: unsupported operand types NoneType and int"
      | Option.some st =>
          let _request := imageSearchParams api_key query c st params
          Except.ok (match outcome with
            | CallOutcome.success data => formatImageResults c data
            | CallOutcome.httpStatusError code text => httpStatusMessage code text
            | CallOutcome.otherError msg => "Error: " ++ msg)

/-! Lemmas about the dictionary embedding: looking a key up after `Dict.set`
and after `Dict.update`. -/

theorem Dict.get?_set_self (d : Dict) (k : String) (v : Val) :
    Dict.get? (Dict.set d k v) k = Option.some v := by
  induction d with
  | nil => simp [Dict.set, Dict.get?]
  | cons p rest ih =>
      by_cases h : p.1 = k
      · simp [Dict.set, h, Dict.get?]
      · simp [Dict.set, h, Dict.get?, ih]

theorem Dict.get?_set_ne (d : Dict) (k k2 : String) (v : Val) (h : k2 ≠ k) :
    Dict.get? (Dict.set d k v) k2 = Dict.get? d k2 := by
  induction d with
  | nil => simp [Dict.set, Dict.get?, Ne.symm h]
  | cons p rest ih =>
      by_cases hp : p.1 = k
      · simp [Dict.set, hp, Dict.get?, Ne.symm h, h]
      · by_cases h2 : p.1 = k2 <;> simp [Dict.set, Dict.get?, hp, h2, h, ih]

theorem Dict.get?_eq_none_of_not_mem (d : Dict) (k : String)
    (h : k ∉ d.map Prod.fst) : Dict.get? d k = Option.none := by
  induction d with
  | nil => rfl
  | cons p rest ih =>
      simp only [List.map_cons, List.mem_cons, not_or] at h
      simp [Dict.get?, Ne.symm h.1, ih h.2]

theorem Dict.get?_update_of_none (d other : Dict) (k : String)
    (h : Dict.get? other k = Option.none) :
    Dict.get? (Dict.update d other) k = Dict.get? d k := by
  induction other generalizing d with
  | nil => rfl
  | cons p rest ih =>
      by_cases hp : p.1 = k
      · simp [Dict.get?, hp] at h
      · simp only [Dict.get?, hp, if_false, ite_false] at h
        have hstep : Dict.update d (p :: rest) = Dict.update (Dict.set d p.1 p.2) rest := rfl
        rw [hstep, ih _ h, Dict.get?_set_ne]
        exact fun hh => hp hh.symm

theorem Dict.get?_update_of_some (d other : Dict) (k : String) (v : Val)
    (hnd : (other.map Prod.fst).Nodup) (h : Dict.get? other k = Option.some v) :
    Dict.get? (Dict.update d other) k = Option.some v := by
  induction other generalizing d with
  | nil => simp [Dict.get?] at h
  | cons p rest ih =>
      obtain ⟨k1, v1⟩ := p
      simp only [List.map_cons, List.nodup_cons] at hnd
      have hstep : Dict.update d ((k1, v1) :: rest) =
          Dict.update (Dict.set d k1 v1) rest := rfl
      by_cases hp : k1 = k
      · subst hp
        have hv : v1 = v := by simpa [Dict.get?] using h
        have hrest : Dict.get? rest k1 = Option.none :=
          Dict.get?_eq_none_of_not_mem rest k1 hnd.1
        rw [hstep, Dict.get?_update_of_none _ _ _ hrest, Dict.get?_set_self, hv]
      · simp only [Dict.get?, hp, if_false, ite_false] at h
        rw [hstep, ih _ hnd.2 h]

/-- Looking up a key in a merged dictionary when the base dictionary binds it:
the overlay value wins when present, the base value remains otherwise. -/
theorem Dict.get?_update_getD (d other : Dict) (k : String) (v0 : Val)
    (hnd : (other.map Prod.fst).Nodup) (hd : Dict.get? d k = Option.some v0) :
    Dict.get? (Dict.update d other) k = Option.some ((Dict.get? other k).getD v0) := by
  cases hcase : Dict.get? other k with
  | none => rw [Dict.get?_update_of_none _ _ _ hcase, hd]; rfl
  | some v => rw [Dict.get?_update_of_some _ _ _ _ hnd hcase]; rfl

/-- Claim C1 counterexample: a caller-supplied `api_key` entry in `params`
overrides the configured key in the effective request built by `search`, so the
effective `api_key` is the caller value, not the system-configured one. -/
theorem search_api_key_caller_override_cex :
    Dict.get? (searchParams "system-key" [("api_key", Val.str "caller-key")]) "api_key" =
      Option.some (Val.str "caller-key") ∧
    Val.str "caller-key" ≠ Val.str "system-key" :=
  ⟨rfl, by decide⟩

/-- Claim C1 (amended): both request builders place the configured API key under
`api_key`, but a caller-supplied `api_key` entry overrides it, so the effective
`api_key` equals the caller value when `params` binds `api_key` and the
configured key only otherwise. -/
theorem api_key_injected_unless_caller_overrides (api_key query : String)
    (c st : Int) (params : Dict) (hnd : (params.map Prod.fst).Nodup) :
    Dict.get? (searchParams api_key params) "api_key" =
      Option.some ((Dict.get? params "api_key").getD (Val.str api_key)) ∧
    Dict.get? (imageSearchParams api_key query c st (Option.some params)) "api_key" =
      Option.some ((Dict.get? params "api_key").getD (Val.str api_key)) ∧
    Dict.get? (imageSearchParams api_key query c st Option.none) "api_key" =
      Option.some (Val.str api_key) := by
  refine ⟨Dict.get?_update_getD _ params _ _ hnd rfl, ?_, rfl⟩
  cases params with
  | nil => rfl
  | cons p rest => exact Dict.get?_update_getD _ (p :: rest) _ _ hnd rfl

/-- Claim C1 witness: with no caller `api_key`, the effective key is the
configured one. -/
theorem api_key_injected_witness :
    ([("q", Val.str "coffee")].map Prod.fst).Nodup ∧
    Dict.get? (searchParams "system-key" [("q", Val.str "coffee")]) "api_key" =
      Option.some (Val.str "system-key") :=
  ⟨by decide,
   (api_key_injected_unless_caller_overrides "system-key" "img" 5 1
      [("q", Val.str "coffee")] (by decide)).1⟩

/-- Claim C2: calling `image_search` with `count = None` (a value its
`Optional[int]` annotation admits) evaluates `count > 10` before the `try`
block and raises an uncaught `TypeError` instead of returning a string. -/
theorem image_search_count_none_raises :
    image_search "any-key" "cats" Option.none (Option.some 1) Option.none
      (CallOutcome.success ⟨Option.none, Option.none, Option.none⟩) =
    Except.error "TypeError: unorderable types NoneType and int" :=
  rfl

/-- Claim C3: when the payload of an `image_search` call carries an `error`
field, the tool returns `"Error: "` followed by its value, whatever
`images_results` and `related_searches` hold, so the error check takes
priority over reading `images_results`. -/
theorem image_search_error_field_priority (api_key query : String) (c0 st : Int)
    (params : Option Dict) (e : String) (imgs : Option (List ImageEntry))
    (rel : Option (List RelatedItem)) :
    image_search api_key query (Option.some c0) (Option.some st) params
      (CallOutcome.success ⟨Option.some e, imgs, rel⟩) =
    Except.ok ("Error: " ++ e) :=
  rfl

/-- Claim C4: the `num` entry placed in the outbound request built by
`image_search` is 10 whenever the supplied integer `count` exceeds 10, and is
the supplied `count` unchanged whenever `count` is at most 10. -/
theorem image_search_num_clamped (api_key query : String) (count0 st : Int) :
    (count0 > 10 →
      Dict.get? (imageSearchBaseParams api_key query (clampCount count0) st) "num" =
        Option.some (Val.int 10)) ∧
    (count0 ≤ 10 →
      Dict.get? (imageSearchBaseParams api_key query (clampCount count0) st) "num" =
        Option.some (Val.int count0)) := by
  have hb : ∀ x : Int, Dict.get? (imageSearchBaseParams api_key query x st) "num" =
      Option.some (Val.int x) := fun x => rfl
  constructor
  · intro h
    rw [hb]
    have hc : clampCount count0 = 10 := by unfold clampCount; split <;> omega
    rw [hc]
  · intro h
    rw [hb]
    have hc : clampCount count0 = count0 := by unfold clampCount; split <;> omega
    rw [hc]

/-- Claim C4 witness: `count = 25` is clamped to `num = 10`, and `count = 3`
passes through unchanged. -/
theorem image_search_num_clamped_witness :
    ((25 : Int) > 10 ∧
      Dict.get? (imageSearchBaseParams "k" "q" (clampCount 25) 1) "num" =
        Option.some (Val.int 10)) ∧
    ((3 : Int) ≤ 10 ∧
      Dict.get? (imageSearchBaseParams "k" "q" (clampCount 3) 1) "num" =
        Option.some (Val.int 3)) :=
  ⟨⟨by decide, (image_search_num_clamped "k" "q" 25 1).1 (by decide)⟩,
   ⟨by decide, (image_search_num_clamped "k" "q" 3 1).2 (by decide)⟩⟩

/-- Claim C5: the `ijn` entry placed in the outbound request built by
`image_search` is `(start - 1).fdiv 10` — `Int.fdiv` is floor division, exactly
Python's `//` — and in particular `start = 1, 11, 25` give `ijn = 0, 1, 2`. -/
theorem image_search_ijn_floor (api_key query : String) (c st : Int) :
    (1 ≤ st →
      Dict.get? (imageSearchBaseParams api_key query c st) "ijn" =
        Option.some (Val.int ((st - 1).fdiv 10))) ∧
    Dict.get? (imageSearchBaseParams api_key query c 1) "ijn" = Option.some (Val.int 0) ∧
    Dict.get? (imageSearchBaseParams api_key query c 11) "ijn" = Option.some (Val.int 1) ∧
    Dict.get? (imageSearchBaseParams api_key query c 25) "ijn" = Option.some (Val.int 2) :=
  ⟨fun _ => rfl, rfl, rfl, rfl⟩

/-- Claim C5 witness: at `start = 25` the request carries `ijn = 2`. -/
theorem image_search_ijn_floor_witness :
    (1 : Int) ≤ 25 ∧
    Dict.get? (imageSearchBaseParams "k" "q" 5 25) "ijn" = Option.some (Val.int 2) :=
  ⟨by decide, (image_search_ijn_floor "k" "q" 5 25).1 (by decide)⟩

/-- Claim C6: the effective request built by `search` carries
`engine = "google_light"` whenever the caller mapping does not bind `engine`,
and the caller value whenever it does. -/
theorem search_engine_default_google_light (api_key : String) (params : Dict)
    (hnd : (params.map Prod.fst).Nodup) :
    Dict.get? (searchParams api_key params) "engine" =
      Option.some ((Dict.get? params "engine").getD (Val.str "google_light")) :=
  Dict.get?_update_getD _ params _ _ hnd rfl

/-- Claim C6 witness: with no caller `engine`, the effective engine is
`google_light`; with a caller `engine`, the caller value wins. -/
theorem search_engine_default_witness :
    (([("q", Val.str "tea")].map Prod.fst).Nodup ∧
      Dict.get? (searchParams "k" [("q", Val.str "tea")]) "engine" =
        Option.some (Val.str "google_light")) ∧
    Dict.get? (searchParams "k" [("engine", Val.str "bing")]) "engine" =
      Option.some (Val.str "bing") :=
  ⟨⟨by decide, search_engine_default_google_light "k" [("q", Val.str "tea")] (by decide)⟩,
   search_engine_default_google_light "k" [("engine", Val.str "bing")] (by decide)⟩

/-- Claim C7: whenever the remote call of either tool fails with an HTTP-status
error carrying code 429, the tool returns exactly the fixed rate-limit
message. -/
theorem rate_limit_429_message (api_key query text : String) (params : Dict)
    (count0 st : Int) (iparams : Option Dict) :
    search api_key params (CallOutcome.httpStatusError 429 text) =
      Except.ok "Error: Rate limit exceeded. Please try again later." ∧
    image_search api_key query (Option.some count0) (Option.some st) iparams
      (CallOutcome.httpStatusError 429 text) =
      Except.ok "Error: Rate limit exceeded. Please try again later." :=
  ⟨rfl, rfl⟩

/-- Claim C8 counterexample: an image entry with all fields missing formats with
`"No title"` and `"Unknown"` fallbacks, but the image URL and thumbnail fields
fall back to the empty string, not to a placeholder: the output contains
`"Image URL: "` immediately followed by a newline. -/
theorem image_block_empty_url_fallback_cex :
    formatImageResults 5
      ⟨Option.none, Option.some [⟨Option.none, Option.none, Option.none, Option.none⟩],
       Option.none⟩ =
      "[1] Title: No title\nSource: Unknown\nImage URL: \nThumbnail: \n" ∧
    List.IsInfix "Image URL: \n".data
      (formatImageResults 5
        ⟨Option.none, Option.some [⟨Option.none, Option.none, Option.none, Option.none⟩],
         Option.none⟩).data :=
  ⟨rfl, by decide⟩

/-- Claim C8 (amended): for nonnegative `count`, the formatter takes the first
`count` entries and renders each as a four-line block with a 1-based index,
where a missing title falls back to `"No title"`, a missing source to
`"Unknown"`, and a missing image URL or thumbnail to the empty string. -/
theorem image_blocks_first_count_with_fallbacks (c : Int) (hc : 0 ≤ c)
    (imgs : List ImageEntry) (h : imgs ≠ []) :
    formatImageResults c ⟨Option.none, Option.some imgs, Option.none⟩ =
      String.intercalate "\n\n" ((imgs.take c.toNat).enum.map (fun p =>
        "[" ++ toString (p.1 + 1) ++ "] Title: " ++ p.2.title.getD "No title" ++ "\n" ++
        "Source: " ++ p.2.source.getD "Unknown" ++ "\n" ++
        "Image URL: " ++ p.2.original.getD "" ++ "\n" ++
        "Thumbnail: " ++ p.2.thumbnail.getD "" ++ "\n")) := by
  obtain ⟨a, as, rfl⟩ := List.exists_cons_of_ne_nil h
  show String.intercalate "\n\n"
      ((pySliceTo (a :: as) c).enum.map (fun p => imageBlock p.1 p.2)) = _
  simp only [pySliceTo]
  rw [if_pos hc]
  rfl

/-- Claim C8 witness: two entries, `count = 1`, one full and one empty entry. -/
theorem image_blocks_first_count_witness :
    (0 : Int) ≤ 1 ∧
    ([(⟨Option.some "cat", Option.some "http-img", Option.some "http-th",
        Option.some "site"⟩ : ImageEntry),
      ⟨Option.none, Option.none, Option.none, Option.none⟩] ≠ []) ∧
    formatImageResults 1
      ⟨Option.none,
       Option.some [⟨Option.some "cat", Option.some "http-img", Option.some "http-th",
         Option.some "site"⟩, ⟨Option.none, Option.none, Option.none, Option.none⟩],
       Option.none⟩ =
      String.intercalate "\n\n"
        (([(⟨Option.some "cat", Option.some "http-img", Option.some "http-th",
            Option.some "site"⟩ : ImageEntry),
           ⟨Option.none, Option.none, Option.none, Option.none⟩].take (1 : Int).toNat).enum.map
          (fun p =>
            "[" ++ toString (p.1 + 1) ++ "] Title: " ++ p.2.title.getD "No title" ++ "\n" ++
            "Source: " ++ p.2.source.getD "Unknown" ++ "\n" ++
            "Image URL: " ++ p.2.original.getD "" ++ "\n" ++
            "Thumbnail: " ++ p.2.thumbnail.getD "" ++ "\n")) :=
  ⟨by decide, List.cons_ne_nil _ _,
   image_blocks_first_count_with_fallbacks 1 (by decide) _ (List.cons_ne_nil _ _)⟩

/-- Worker lemma for the related-searches claim: the tail-recursive worker of
`String.intercalate` applied to a list ending in `x` produces a string ending in
`x`, at the level of character lists. -/
theorem intercalate_go_data_suffix (sep x : String) :
    ∀ (as : List String) (acc : String),
      List.IsSuffix x.data (String.intercalate.go acc sep (as ++ [x])).data
  | [], acc => ⟨(acc ++ sep).data, (String.data_append _ _).symm⟩
  | a :: as', acc => intercalate_go_data_suffix sep x as' (acc ++ sep ++ a)

/-- The string joining a list ending in `x` ends in `x`. -/
theorem intercalate_data_suffix_last (sep : String) (l : List String) (x : String) :
    List.IsSuffix x.data (String.intercalate sep (l ++ [x])).data := by
  cases l with
  | nil => exact List.suffix_refl _
  | cons a l' => exact intercalate_go_data_suffix sep x l' a

/-- Claim C9 counterexample: a payload whose `related_searches` holds seven
items but whose `images_results` is empty returns the fixed no-results message,
which does not end with a `Related Searches` block. -/
theorem related_searches_requires_results_cex :
    formatImageResults 5
      ⟨Option.none, Option.some [],
       Option.some [⟨Option.some "a"⟩, ⟨Option.some "b"⟩, ⟨Option.some "c"⟩,
         ⟨Option.some "d"⟩, ⟨Option.some "e"⟩, ⟨Option.some "f"⟩, ⟨Option.some "g"⟩]⟩ =
      "No image results found for your query." ∧
    ¬ List.IsSuffix
      ("Related Searches: " ++
        String.intercalate ", "
          (([(⟨Option.some "a"⟩ : RelatedItem), ⟨Option.some "b"⟩, ⟨Option.some "c"⟩,
            ⟨Option.some "d"⟩, ⟨Option.some "e"⟩, ⟨Option.some "f"⟩,
            ⟨Option.some "g"⟩].take 5).map (fun item => item.query.getD ""))).data
      "No image results found for your query.".data :=
  ⟨rfl, by decide⟩

/-- Claim C9 (amended): for every payload with no `error` key, a non-empty
`images_results` and a non-empty `related_searches`, the output ends with
`"Related Searches: "` followed by the comma-separated query strings of the
first five related items, a missing query contributing the empty string and
items beyond the fifth being omitted. -/
theorem related_searches_suffix_first_five (c : Int) (imgs : List ImageEntry)
    (rel : List RelatedItem) (himgs : imgs ≠ []) (hrel : rel ≠ []) :
    List.IsSuffix
      ("Related Searches: " ++
        String.intercalate ", " ((rel.take 5).map (fun item => item.query.getD ""))).data
      (formatImageResults c ⟨Option.none, Option.some imgs, Option.some rel⟩).data := by
  obtain ⟨a, as, rfl⟩ := List.exists_cons_of_ne_nil himgs
  obtain ⟨r, rs, rfl⟩ := List.exists_cons_of_ne_nil hrel
  have hout : formatImageResults c
      ⟨Option.none, Option.some (a :: as), Option.some (r :: rs)⟩ =
      String.intercalate "\n\n"
        (((pySliceTo (a :: as) c).enum.map (fun p => imageBlock p.1 p.2)) ++
          [relatedBlock (r :: rs)]) := rfl
  rw [hout]
  have hsplit : ("\nRelated Searches: " : String) = "\n" ++ "Related Searches: " := rfl
  have hrb : relatedBlock (r :: rs) =
      "\n" ++ ("Related Searches: " ++
        String.intercalate ", " (((r :: rs).take 5).map (fun item => item.query.getD ""))) := by
    show "\nRelated Searches: " ++ _ = _
    rw [hsplit, String.append_assoc]
  refine List.IsSuffix.trans ?_ (intercalate_data_suffix_last "\n\n" _ _)
  rw [hrb, String.data_append]
  exact List.suffix_append _ _

/-- Claim C9 witness: seven related items yield a block listing exactly the
first five queries. -/
theorem related_searches_suffix_witness :
    ([(⟨Option.some "t", Option.some "u", Option.some "h", Option.some "s"⟩ :
        ImageEntry)] ≠ []) ∧
    ([(⟨Option.some "a"⟩ : RelatedItem), ⟨Option.some "b"⟩, ⟨Option.some "c"⟩,
      ⟨Option.some "d"⟩, ⟨Option.some "e"⟩, ⟨Option.some "f"⟩, ⟨Option.some "g"⟩] ≠ []) ∧
    List.IsSuffix
      ("Related Searches: " ++
        String.intercalate ", "
          ((([(⟨Option.some "a"⟩ : RelatedItem), ⟨Option.some "b"⟩, ⟨Option.some "c"⟩,
            ⟨Option.some "d"⟩, ⟨Option.some "e"⟩, ⟨Option.some "f"⟩,
            ⟨Option.some "g"⟩].take 5)).map (fun item => item.query.getD ""))).data
      (formatImageResults 5
        ⟨Option.none,
         Option.some [⟨Option.some "t", Option.some "u", Option.some "h", Option.some "s"⟩],
         Option.some [⟨Option.some "a"⟩, ⟨Option.some "b"⟩, ⟨Option.some "c"⟩,
           ⟨Option.some "d"⟩, ⟨Option.some "e"⟩, ⟨Option.some "f"⟩,
           ⟨Option.some "g"⟩]⟩).data :=
  ⟨List.cons_ne_nil _ _, List.cons_ne_nil _ _,
   related_searches_suffix_first_five 5 _ _ (List.cons_ne_nil _ _) (List.cons_ne_nil _ _)⟩

/-- Claim C10 counterexample: with the negative count `-1`, Python's slice
`images_results[:-1]` keeps all but the last entry, so the tool formats the
first of two entries instead of returning the empty string. -/
theorem image_search_negative_count_cex :
    image_search "k" "q" (Option.some (-1)) (Option.some 1) Option.none
      (CallOutcome.success
        ⟨Option.none,
         Option.some [⟨Option.some "t1", Option.some "u1", Option.some "h1", Option.some "s1"⟩,
           ⟨Option.some "t2", Option.some "u2", Option.some "h2", Option.some "s2"⟩],
         Option.none⟩) =
      Except.ok "[1] Title: t1\nSource: s1\nImage URL: u1\nThumbnail: h1\n" ∧
    ("[1] Title: t1\nSource: s1\nImage URL: u1\nThumbnail: h1\n" : String) ≠ "" :=
  ⟨rfl, by decide⟩

/-- Claim C10 (amended): with `count = 0` and a payload holding a non-empty
`images_results` and no `related_searches`, the tool returns the empty string,
not the no-results message, because the emptiness check runs before the
truncation to `count` entries. -/
theorem image_search_count_zero_empty_string (api_key query : String) (st : Int)
    (params : Option Dict) (imgs : List ImageEntry) (h : imgs ≠ []) :
    image_search api_key query (Option.some 0) (Option.some st) params
      (CallOutcome.success ⟨Option.none, Option.some imgs, Option.none⟩) =
      Except.ok "" := by
  obtain ⟨a, as, rfl⟩ := List.exists_cons_of_ne_nil h
  rfl

/-- Claim C10 witness: one available image entry and `count = 0` yields the
empty string. -/
theorem image_search_count_zero_witness :
    ([(⟨Option.none, Option.none, Option.none, Option.none⟩ : ImageEntry)] ≠ []) ∧
    image_search "k" "q" (Option.some 0) (Option.some 1) Option.none
      (CallOutcome.success
        ⟨Option.none,
         Option.some [⟨Option.none, Option.none, Option.none, Option.none⟩],
         Option.none⟩) =
      Except.ok "" :=
  ⟨List.cons_ne_nil _ _,
   image_search_count_zero_empty_string "k" "q" 1 Option.none _ (List.cons_ne_nil _ _)⟩
